import Mathlib

/-!
Shallow embedding of the `cheap-clone` crate (`src/lib.rs`).

The crate defines a single trait:

  pub trait CheapClone: Clone {
    fn cheap_clone(&self) -> Self { self.clone() }
  }

together with
  * a macro `impl_cheap_clone_for_copy!` whose generated impls all have the
    body `*self` (a bitwise copy of the receiver), instantiated at the
    primitive scalar types, the `NonZero*` wrappers, `&str` and the six
    network-address types;
  * empty impls (hence using the default body `self.clone()`) for
    `Bytes`, `SmolStr`, `Rc<T>`, `Arc<T>` (both for every `T: ?Sized`),
    `Box<T: CheapClone>`, `Pin<T: CheapClone>`, `Option<T: CheapClone>`,
    `Result<T: CheapClone, E: CheapClone>`,
    `Either<L: CheapClone, R: CheapClone>`;
  * `impl<T: Copy, const N: usize> CheapClone for [T; N]` with body `*self`.

The embedding has two layers:
  * a deep embedding `Ty` of the type grammar relevant to the crate, with
    decidable predicates `Ty.isCopy` (Rust `Copy` membership for these
    shapes) and `Ty.hasCheapClone` (exactly the set of impls the crate
    declares), used for the compile-time coverage claims;
  * value-level models of each covered type's `clone` and `cheap_clone`.
    Pure values become Lean values; the reference-counted pointers
    (`Rc`, `Arc`, and the shared representation of `Bytes`) thread an
    explicit heap of strong counts; `Box` threads an explicit store of
    pointees so that allocation identity is observable.
-/

/-- Bit widths of the Rust fixed-width integer families (`size` is the
platform word). -/
inductive Width : Type where
  | w8 | w16 | w32 | w64 | w128 | wsize
deriving DecidableEq, Repr

/-- Deep embedding of the type shapes the crate's impls range over.
`int s w` is the signed (`s = true`) or unsigned fixed-width integer of
width `w`; `nonZero s w` the corresponding `core::num::NonZero*` wrapper.
`vec` and `string` are included as the documented non-examples
(`Vec<T>`, `String`) that bear no impl. -/
inductive Ty : Type where
  | bool | char | f32 | f64
  | int (signed : Bool) (w : Width)
  | nonZero (signed : Bool) (w : Width)
  | strRef
  | bytes | smolStr
  | rc (t : Ty) | arc (t : Ty) | box (t : Ty) | pin (t : Ty)
  | option (t : Ty) | result (t e : Ty) | either (l r : Ty)
  | ipAddr | ipv4Addr | ipv6Addr | socketAddr | socketAddrV4 | socketAddrV6
  | array (t : Ty) (n : Nat)
  | vec (t : Ty) | string
deriving DecidableEq, Repr

/-- Rust `Copy` membership for the shapes of `Ty`: scalars, `NonZero*`,
`&str` and the network-address types are `Copy`; `[T; N]`, `Option<T>`,
`Pin<T>` are `Copy` when `T` is, `Result<T, E>` / `Either<L, R>` when both
parameters are; the owning and shared pointers (`Box`, `Rc`, `Arc`,
`Bytes`, `SmolStr`, `Vec`, `String`) are not. -/
def Ty.isCopy : Ty → Bool
  | .bool | .char | .f32 | .f64 => true
  | .int _ _ | .nonZero _ _ => true
  | .strRef => true
  | .bytes | .smolStr => false
  | .rc _ | .arc _ | .box _ => false
  | .pin t => t.isCopy
  | .option t => t.isCopy
  | .result t e => t.isCopy && e.isCopy
  | .either l r => l.isCopy && r.isCopy
  | .ipAddr | .ipv4Addr | .ipv6Addr => true
  | .socketAddr | .socketAddrV4 | .socketAddrV6 => true
  | .array t _ => t.isCopy
  | .vec _ | .string => false

/-- Exactly the set of `CheapClone` impls declared in `src/lib.rs`:
the macro instantiations, the unconditional `Rc<T>` / `Arc<T>` impls
(`T: ?Sized`, no bound on `T`), the conditional `Box` / `Pin` / `Option` /
`Result` / `Either` impls, and `[T; N]` under the bound `T: Copy`. -/
def Ty.hasCheapClone : Ty → Bool
  | .bool | .char | .f32 | .f64 => true
  | .int _ _ | .nonZero _ _ => true
  | .strRef => true
  | .bytes | .smolStr => true
  | .rc _ | .arc _ => true
  | .box t => t.hasCheapClone
  | .pin t => t.hasCheapClone
  | .option t => t.hasCheapClone
  | .result t e => t.hasCheapClone && e.hasCheapClone
  | .either l r => l.hasCheapClone && r.hasCheapClone
  | .ipAddr | .ipv4Addr | .ipv6Addr => true
  | .socketAddr | .socketAddrV4 | .socketAddrV6 => true
  | .array t _ => t.isCopy
  | .vec _ | .string => false

/-- An `f32` as its 32-bit pattern (sign bit 31, 8 exponent bits, 23
mantissa bits); the pattern-level view is needed because IEEE equality is
not reflexive on NaN. -/
structure F32 where
  bits : Nat
deriving DecidableEq, Repr

/-- A NaN pattern: exponent field all ones and nonzero mantissa. -/
def F32.isNan (x : F32) : Bool :=
  (x.bits / 2 ^ 23) % 2 ^ 8 == 255 && x.bits % 2 ^ 23 != 0

/-- IEEE-754 equality on `f32` (Rust `==` on `f32`): false whenever either
side is NaN, true on any two zeros (`+0.0 == -0.0`), bit equality
otherwise. -/
def F32.beq (a b : F32) : Bool :=
  if a.isNan || b.isNan then false
  else (a.bits % 2 ^ 31 == 0 && b.bits % 2 ^ 31 == 0) || a.bits == b.bits

/-- An `f64` as its 64-bit pattern (sign bit 63, 11 exponent bits, 52
mantissa bits). -/
structure F64 where
  bits : Nat
deriving DecidableEq, Repr

/-- A NaN pattern: exponent field all ones and nonzero mantissa. -/
def F64.isNan (x : F64) : Bool :=
  (x.bits / 2 ^ 52) % 2 ^ 11 == 2047 && x.bits % 2 ^ 52 != 0

/-- IEEE-754 equality on `f64` (Rust `==` on `f64`). -/
def F64.beq (a b : F64) : Bool :=
  if a.isNan || b.isNan then false
  else (a.bits % 2 ^ 63 == 0 && b.bits % 2 ^ 63 == 0) || a.bits == b.bits

/-- Body generated by `impl_cheap_clone_for_copy!` for every listed type,
and by the `[T; N]` impl: `*self`, i.e. a bitwise copy of the receiver's
value. -/
def copyCheapClone {α : Type} (v : α) : α := v

/-- The `Clone` impl of every primitive `Copy` type in Rust likewise
returns `*self`; this models the type's ordinary duplication for the
macro-covered scalar carriers. -/
def copyClone {α : Type} (v : α) : α := v

/-- Model of `[T; N]` values: a function from indices to elements. -/
def ArrayN (α : Type) (n : Nat) : Type := Fin n → α

/-- Override body of `impl<T: Copy, const N: usize> CheapClone for [T; N]`:
`*self`. -/
def ArrayN.cheapClone {α : Type} {n : Nat} (v : ArrayN α n) : ArrayN α n := v

/-- Ordinary duplication of `[T; N]`: element-by-element `T::clone`,
parametrised by the element type's clone operation. -/
def ArrayN.clone {α : Type} {n : Nat} (cloneElem : α → α) (v : ArrayN α n) :
    ArrayN α n :=
  fun i => cloneElem (v i)

/-- A heap of strong reference counts, indexed by allocation id. -/
structure CountHeap where
  counts : Nat → Nat

/-- Increment the strong count of allocation `p`. -/
def CountHeap.bump (s : CountHeap) (p : Nat) : CountHeap :=
  ⟨fun q => if q = p then s.counts q + 1 else s.counts q⟩

/-- An `alloc::rc::Rc<T>` handle: the id of its shared allocation. -/
structure Rc (α : Type) where
  ptr : Nat
deriving DecidableEq, Repr

/-- `Rc::clone`: return a handle to the same allocation after incrementing
its strong count. -/
def Rc.clone {α : Type} (p : Rc α) (s : CountHeap) : Rc α × CountHeap :=
  (⟨p.ptr⟩, s.bump p.ptr)

/-- The crate's `impl<T: ?Sized> CheapClone for Rc<T>` is empty, so
`cheap_clone` is the trait's default body `self.clone()`. -/
def Rc.cheapClone {α : Type} (p : Rc α) (s : CountHeap) : Rc α × CountHeap :=
  Rc.clone p s

/-- An `alloc::sync::Arc<T>` handle: the id of its shared allocation. -/
structure Arc (α : Type) where
  ptr : Nat
deriving DecidableEq, Repr

/-- `Arc::clone`: return a handle to the same allocation after (atomically)
incrementing its strong count; atomicity has no observable effect in this
single-threaded model. -/
def Arc.clone {α : Type} (p : Arc α) (s : CountHeap) : Arc α × CountHeap :=
  (⟨p.ptr⟩, s.bump p.ptr)

/-- The crate's `impl<T: ?Sized> CheapClone for Arc<T>` is empty, so
`cheap_clone` is the trait's default body `self.clone()`. -/
def Arc.cheapClone {α : Type} (p : Arc α) (s : CountHeap) : Arc α × CountHeap :=
  Arc.clone p s

/-- A `bytes::Bytes` handle in its shared representation: a view into a
reference-counted buffer (the id of the shared allocation). -/
structure Bytes where
  ptr : Nat
deriving DecidableEq, Repr

/-- `Bytes::clone` for the shared representation: same view, count bumped. -/
def Bytes.clone (b : Bytes) (s : CountHeap) : Bytes × CountHeap :=
  (⟨b.ptr⟩, s.bump b.ptr)

/-- The crate's `impl CheapClone for Bytes` is empty, so `cheap_clone` is
the trait's default body `self.clone()`. -/
def Bytes.cheapClone (b : Bytes) (s : CountHeap) : Bytes × CountHeap :=
  Bytes.clone b s

/-- A `smol_str::SmolStr` by its string value; its `Clone` is O(1)
(inline copy or shared-buffer bump) and value-preserving, so at the value
level it is the identity. -/
structure SmolStr where
  data : List Char
deriving DecidableEq, Repr

/-- `SmolStr::clone`: an equal string value. -/
def SmolStr.clone (s : SmolStr) : SmolStr := ⟨s.data⟩

/-- The crate's `impl CheapClone for SmolStr` is empty, so `cheap_clone` is
the trait's default body `self.clone()`. -/
def SmolStr.cheapClone (s : SmolStr) : SmolStr := SmolStr.clone s

/-- A `Box<T>` handle: the id of its exclusively-owned allocation. -/
structure Box (α : Type) where
  ptr : Nat
deriving DecidableEq, Repr

/-- The store `Box` allocations live in: pointee values by allocation id,
plus the next fresh id. -/
structure BoxHeap (α : Type) where
  mem : Nat → Option α
  next : Nat

/-- `Box::clone` (the `T: Clone` impl): allocate a fresh cell holding a
clone of the pointee and return a handle to it. A dangling handle (never
produced by the real program) is returned unchanged. `cloneInner` is
`T::clone`. -/
def Box.clone {α : Type} (cloneInner : α → α) (b : Box α) (s : BoxHeap α) :
    Box α × BoxHeap α :=
  match s.mem b.ptr with
  | some v =>
    (⟨s.next⟩,
     ⟨fun q => if q = s.next then some (cloneInner v) else s.mem q, s.next + 1⟩)
  | none => (b, s)

/-- The crate's `impl<T: ?Sized + CheapClone> CheapClone for Box<T>` is
empty, so `cheap_clone` is the trait's default body `self.clone()`. -/
def Box.cheapClone {α : Type} (cloneInner : α → α) (b : Box α) (s : BoxHeap α) :
    Box α × BoxHeap α :=
  Box.clone cloneInner b s

/-- A `std::pin::Pin<T>` wrapper around its pointer value. -/
structure Pin (α : Type) where
  pointer : α
deriving DecidableEq, Repr

/-- `Pin::clone` (derived): clone the wrapped pointer. -/
def Pin.clone {α : Type} (cloneInner : α → α) (p : Pin α) : Pin α :=
  ⟨cloneInner p.pointer⟩

/-- The crate's `impl<T: ?Sized + CheapClone> CheapClone for Pin<T>` is
empty, so `cheap_clone` is the trait's default body `self.clone()`. -/
def Pin.cheapClone {α : Type} (cloneInner : α → α) (p : Pin α) : Pin α :=
  Pin.clone cloneInner p

/-- `Option::clone` (derived): `None => None`, `Some(x) => Some(x.clone())`. -/
def Option.cloneR {α : Type} (cloneInner : α → α) : Option α → Option α
  | none => none
  | some x => some (cloneInner x)

/-- The crate's `impl<T: CheapClone> CheapClone for Option<T>` is empty, so
`cheap_clone` is the trait's default body `self.clone()`. -/
def Option.cheapClone {α : Type} (cloneInner : α → α) (o : Option α) :
    Option α :=
  Option.cloneR cloneInner o

/-- Rust's `Result<T, E>`. -/
inductive RustResult (α ε : Type) : Type where
  | ok (v : α)
  | err (e : ε)
deriving DecidableEq, Repr

/-- `Result::clone` (derived): clone the held value in place. -/
def RustResult.clone {α ε : Type} (cloneOk : α → α) (cloneErr : ε → ε) :
    RustResult α ε → RustResult α ε
  | .ok v => .ok (cloneOk v)
  | .err e => .err (cloneErr e)

/-- The crate's `impl<T: CheapClone, E: CheapClone> CheapClone for
Result<T, E>` is empty, so `cheap_clone` is the trait's default body
`self.clone()`. -/
def RustResult.cheapClone {α ε : Type} (cloneOk : α → α) (cloneErr : ε → ε)
    (r : RustResult α ε) : RustResult α ε :=
  RustResult.clone cloneOk cloneErr r

/-- `either::Either<L, R>`. -/
inductive REither (L R : Type) : Type where
  | left (a : L)
  | right (b : R)
deriving DecidableEq, Repr

/-- `Either::clone` (derived): clone the held value in place. -/
def REither.clone {L R : Type} (cloneL : L → L) (cloneR : R → R) :
    REither L R → REither L R
  | .left a => .left (cloneL a)
  | .right b => .right (cloneR b)

/-- The crate's `impl<L: CheapClone, R: CheapClone> CheapClone for
Either<L, R>` is empty, so `cheap_clone` is the trait's default body
`self.clone()`. -/
def REither.cheapClone {L R : Type} (cloneL : L → L) (cloneR : R → R)
    (x : REither L R) : REither L R :=
  REither.clone cloneL cloneR x

/-- `std::net::Ipv4Addr`: four octet values. -/
structure Ipv4Addr where
  o0 : Nat
  o1 : Nat
  o2 : Nat
  o3 : Nat
deriving DecidableEq, Repr

/-- `Ipv4Addr`'s ordinary duplication (a `Copy` type): field-wise copy. -/
def Ipv4Addr.clone (x : Ipv4Addr) : Ipv4Addr := ⟨x.o0, x.o1, x.o2, x.o3⟩

/-- Macro-generated override for `Ipv4Addr`: `*self`. -/
def Ipv4Addr.cheapClone (x : Ipv4Addr) : Ipv4Addr := x

/-- `std::net::Ipv6Addr` by its 128-bit address value. -/
structure Ipv6Addr where
  addr : Nat
deriving DecidableEq, Repr

/-- `Ipv6Addr`'s ordinary duplication (a `Copy` type): field-wise copy. -/
def Ipv6Addr.clone (x : Ipv6Addr) : Ipv6Addr := ⟨x.addr⟩

/-- Macro-generated override for `Ipv6Addr`: `*self`. -/
def Ipv6Addr.cheapClone (x : Ipv6Addr) : Ipv6Addr := x

/-- `std::net::SocketAddrV4`: address and port. -/
structure SocketAddrV4 where
  ip : Ipv4Addr
  port : Nat
deriving DecidableEq, Repr

/-- `SocketAddrV4`'s ordinary duplication: field-wise copy. -/
def SocketAddrV4.clone (x : SocketAddrV4) : SocketAddrV4 :=
  ⟨x.ip.clone, x.port⟩

/-- Macro-generated override for `SocketAddrV4`: `*self`. -/
def SocketAddrV4.cheapClone (x : SocketAddrV4) : SocketAddrV4 := x

/-- `std::net::SocketAddrV6`: address, port, flow info and scope id. -/
structure SocketAddrV6 where
  ip : Ipv6Addr
  port : Nat
  flowinfo : Nat
  scopeId : Nat
deriving DecidableEq, Repr

/-- `SocketAddrV6`'s ordinary duplication: field-wise copy. -/
def SocketAddrV6.clone (x : SocketAddrV6) : SocketAddrV6 :=
  ⟨x.ip.clone, x.port, x.flowinfo, x.scopeId⟩

/-- Macro-generated override for `SocketAddrV6`: `*self`. -/
def SocketAddrV6.cheapClone (x : SocketAddrV6) : SocketAddrV6 := x

/-- `std::net::IpAddr`: tagged union of the two versions. -/
inductive IpAddr : Type where
  | v4 (a : Ipv4Addr)
  | v6 (a : Ipv6Addr)
deriving DecidableEq, Repr

/-- `IpAddr`'s ordinary duplication (derived): clone the held variant. -/
def IpAddr.clone : IpAddr → IpAddr
  | .v4 a => .v4 a.clone
  | .v6 a => .v6 a.clone

/-- Macro-generated override for `IpAddr`: `*self`. -/
def IpAddr.cheapClone (x : IpAddr) : IpAddr := x

/-- `std::net::SocketAddr`: tagged union of the two versions. -/
inductive SocketAddr : Type where
  | v4 (a : SocketAddrV4)
  | v6 (a : SocketAddrV6)
deriving DecidableEq, Repr

/-- `SocketAddr`'s ordinary duplication (derived): clone the held variant. -/
def SocketAddr.clone : SocketAddr → SocketAddr
  | .v4 a => .v4 a.clone
  | .v6 a => .v6 a.clone

/-- Macro-generated override for `SocketAddr`: `*self`. -/
def SocketAddr.cheapClone (x : SocketAddr) : SocketAddr := x

/-- Value carrier of the `NonZero*` unsigned wrappers: a nonzero natural. -/
def NonZeroU : Type := {n : Nat // n ≠ 0}

/-- Value carrier of the `NonZero*` signed wrappers: a nonzero integer. -/
def NonZeroI : Type := {n : Int // n ≠ 0}

/-- Value carrier of `&str`: the character sequence the slice points at
(copying the reference yields a reference to the same sequence). -/
def StrRef : Type := List Char

/-- C1: every impl in the crate that does not override `cheap_clone`
(`Rc`, `Arc`, `Box`, `Pin`, `Option`, `Result`, `Either`, `Bytes`,
`SmolStr`) inherits the trait's default body, so its `cheap_clone` returns
exactly what the type's ordinary duplication `clone` returns on the same
input (for the stateful pointer types: the same handle and the same
resulting heap). -/
theorem c1_default_impls_delegate_to_clone :
    (∀ (α : Type) (p : Rc α) (s : CountHeap),
      Rc.cheapClone p s = Rc.clone p s) ∧
    (∀ (α : Type) (p : Arc α) (s : CountHeap),
      Arc.cheapClone p s = Arc.clone p s) ∧
    (∀ (α : Type) (cf : α → α) (b : Box α) (s : BoxHeap α),
      Box.cheapClone cf b s = Box.clone cf b s) ∧
    (∀ (α : Type) (cf : α → α) (p : Pin α),
      Pin.cheapClone cf p = Pin.clone cf p) ∧
    (∀ (α : Type) (cf : α → α) (o : Option α),
      Option.cheapClone cf o = Option.cloneR cf o) ∧
    (∀ (α ε : Type) (cf : α → α) (ce : ε → ε) (r : RustResult α ε),
      RustResult.cheapClone cf ce r = RustResult.clone cf ce r) ∧
    (∀ (L R : Type) (cl : L → L) (cr : R → R) (x : REither L R),
      REither.cheapClone cl cr x = REither.clone cl cr x) ∧
    (∀ (b : Bytes) (s : CountHeap), Bytes.cheapClone b s = Bytes.clone b s) ∧
    (∀ s : SmolStr, SmolStr.cheapClone s = SmolStr.clone s) := by
  refine ⟨?_, ?_, ?_, ?_, ?_, ?_, ?_, ?_, ?_⟩ <;> intros <;> rfl

/-- C2 counterexample: at the `f32` NaN pattern `0x7FC00000`,
`cheap_clone` returns the bit-identical value, yet under `f32`'s native
(IEEE) equality the result does not equal the original, so the claim
"cheap_clone(v) equals v under native equality" fails for the covered type
`f32`. -/
theorem c2_counterexample_f32_nan :
    F32.isNan ⟨0x7FC00000⟩ = true ∧
    copyCheapClone (F32.mk 0x7FC00000) = F32.mk 0x7FC00000 ∧
    F32.beq (copyCheapClone (F32.mk 0x7FC00000)) (F32.mk 0x7FC00000) = false :=
  ⟨by decide, rfl, by decide⟩

/-- C2 (amended): for every covered scalar/primitive carrier,
`cheap_clone` (the macro body `*self`) returns the original value; under
the type's native equality the result equals the original for `bool`,
`char`, all fixed-width signed and unsigned integers, `isize`/`usize`, the
non-zero wrappers and `&str`, and for `f32`/`f64` exactly when the value
is not NaN. The `Ty`-level components record that every one of these types
bears the capability. -/
theorem c2_scalar_identity_amended :
    (∀ v : Bool, copyCheapClone v = v) ∧
    (∀ v : Char, copyCheapClone v = v) ∧
    (∀ v : Int, copyCheapClone v = v) ∧
    (∀ v : Nat, copyCheapClone v = v) ∧
    (∀ v : NonZeroI, copyCheapClone v = v) ∧
    (∀ v : NonZeroU, copyCheapClone v = v) ∧
    (∀ v : StrRef, copyCheapClone v = v) ∧
    (∀ x : F32, copyCheapClone x = x ∧
      (x.isNan = false → F32.beq (copyCheapClone x) x = true)) ∧
    (∀ x : F64, copyCheapClone x = x ∧
      (x.isNan = false → F64.beq (copyCheapClone x) x = true)) ∧
    (∀ (sg : Bool) (w : Width), Ty.hasCheapClone (Ty.int sg w) = true) ∧
    (∀ (sg : Bool) (w : Width), Ty.hasCheapClone (Ty.nonZero sg w) = true) ∧
    Ty.hasCheapClone Ty.bool = true ∧
    Ty.hasCheapClone Ty.char = true ∧
    Ty.hasCheapClone Ty.f32 = true ∧
    Ty.hasCheapClone Ty.f64 = true ∧
    Ty.hasCheapClone Ty.strRef = true := by
  refine ⟨fun _ => rfl, fun _ => rfl, fun _ => rfl, fun _ => rfl, fun _ => rfl,
    fun _ => rfl, fun _ => rfl, ?_, ?_, fun _ _ => rfl, fun _ _ => rfl,
    rfl, rfl, rfl, rfl, rfl⟩
  · intro x
    refine ⟨rfl, fun hx => ?_⟩
    simp [copyCheapClone, F32.beq, hx]
  · intro x
    refine ⟨rfl, fun hx => ?_⟩
    simp [copyCheapClone, F64.beq, hx]

/-- C2 witness: the amended theorem applied at the concrete non-NaN `f32`
pattern of `1.0`. -/
theorem c2_scalar_identity_amended_witness :
    F32.beq (copyCheapClone (F32.mk 0x3F800000)) (F32.mk 0x3F800000) = true :=
  (c2_scalar_identity_amended.2.2.2.2.2.2.2.1 ⟨0x3F800000⟩).2 (by decide)

/-- C3 counterexample: `Rc<bool>` bears the capability, but
`[Rc<bool>; 2]` does not (the array impl requires `T: Copy`, and `Rc` is
not `Copy`), refuting "every fixed-size array whose element type bears the
capability itself bears the capability". -/
theorem c3_counterexample_array_capability :
    Ty.hasCheapClone (Ty.rc Ty.bool) = true ∧
    Ty.hasCheapClone (Ty.array (Ty.rc Ty.bool) 2) = false := by
  decide

/-- C3 (amended): a fixed-size array bears the capability exactly when its
element type is `Copy` (not when it bears the capability), and
`cheap_clone` on such an array (`*self`) returns an array equal to the
original element by element. -/
theorem c3_array_copy_capability :
    (∀ (t : Ty) (n : Nat), Ty.hasCheapClone (Ty.array t n) = t.isCopy) ∧
    (∀ (α : Type) (n : Nat) (v : ArrayN α n) (i : Fin n),
      ArrayN.cheapClone v i = v i) :=
  ⟨fun _ _ => rfl, fun _ _ _ _ => rfl⟩

/-- C4: `Rc<T>` and `Arc<T>` bear the capability for every pointee type
`T` (no condition), `cheap_clone` on a handle returns a handle to the same
allocation, and the allocation's strong count after the call is exactly
one greater than before. -/
theorem c4_rc_arc_same_allocation_and_count :
    (∀ t : Ty, Ty.hasCheapClone (Ty.rc t) = true ∧
      Ty.hasCheapClone (Ty.arc t) = true) ∧
    (∀ (α : Type) (p : Rc α) (s : CountHeap),
      (Rc.cheapClone p s).1.ptr = p.ptr ∧
      (Rc.cheapClone p s).2.counts p.ptr = s.counts p.ptr + 1) ∧
    (∀ (α : Type) (p : Arc α) (s : CountHeap),
      (Arc.cheapClone p s).1.ptr = p.ptr ∧
      (Arc.cheapClone p s).2.counts p.ptr = s.counts p.ptr + 1) := by
  refine ⟨fun t => ⟨rfl, rfl⟩, ?_, ?_⟩ <;>
    exact fun α p s => ⟨rfl, by simp [Rc.cheapClone, Rc.clone, Arc.cheapClone,
      Arc.clone, CountHeap.bump]⟩

/-- Unfolding lemma for `Box.clone` on a valid handle: it allocates the
cloned pointee at the fresh id and advances the allocator. -/
theorem Box.clone_eq_of_mem {α : Type} (cf : α → α) (b : Box α)
    (s : BoxHeap α) (v : α) (hmem : s.mem b.ptr = some v) :
    Box.clone cf b s =
      (⟨s.next⟩,
       ⟨fun q => if q = s.next then some (cf v) else s.mem q, s.next + 1⟩) := by
  simp [Box.clone, hmem]

/-- C5: `Box<T>` bears the capability exactly when `T` does, and on a
valid handle whose pointee's clone is value-preserving, `cheap_clone`
returns a handle to a distinct allocation holding a value equal to the
original pointee, while the original allocation still holds its value. -/
theorem c5_box_fresh_allocation_equal_contents
    (α : Type) (cf : α → α) (b : Box α) (s : BoxHeap α) (v : α)
    (hmem : s.mem b.ptr = some v) (hfresh : s.mem s.next = none)
    (hcf : cf v = v) :
    (∀ t : Ty, Ty.hasCheapClone (Ty.box t) = Ty.hasCheapClone t) ∧
    (Box.cheapClone cf b s).1.ptr ≠ b.ptr ∧
    (Box.cheapClone cf b s).2.mem (Box.cheapClone cf b s).1.ptr = some v ∧
    (Box.cheapClone cf b s).2.mem b.ptr = some v := by
  have hne : b.ptr ≠ s.next := by
    intro h
    rw [h, hfresh] at hmem
    exact Option.noConfusion hmem
  simp only [Box.cheapClone, Box.clone_eq_of_mem cf b s v hmem]
  refine ⟨fun _ => rfl, fun h => hne h.symm, ?_, ?_⟩
  · simp [hcf]
  · simp [hne, hmem]

/-- C5 witness: the theorem applied to a one-cell store holding `5` at
allocation `0`, with the identity as the pointee's clone. -/
theorem c5_box_witness :
    (Box.cheapClone (fun n : Nat => n) ⟨0⟩
        ⟨fun q => if q = 0 then some 5 else none, 1⟩).1.ptr ≠ 0 ∧
    (Box.cheapClone (fun n : Nat => n) ⟨0⟩
        ⟨fun q => if q = 0 then some 5 else none, 1⟩).2.mem 0 = some 5 := by
  have h := c5_box_fresh_allocation_equal_contents Nat (fun n => n) ⟨0⟩
    ⟨fun q => if q = 0 then some 5 else none, 1⟩ 5 rfl rfl rfl
  exact ⟨h.2.1, h.2.2.2⟩

/-- C6: `Option<T>` bears the capability exactly when `T` does and
`Result<T, E>` exactly when both `T` and `E` do; when the inner clone
operations are value-preserving, `cheap_clone` preserves present-vs-absent
status on options (returning the same contained value when present) and
preserves the held variant and its value on results. -/
theorem c6_option_result_preserve_variant
    (α ε : Type) (cf : α → α) (ce : ε → ε)
    (hcf : ∀ x, cf x = x) (hce : ∀ e, ce e = e) :
    (∀ t : Ty, Ty.hasCheapClone (Ty.option t) = Ty.hasCheapClone t) ∧
    (∀ t e : Ty, Ty.hasCheapClone (Ty.result t e)
      = (Ty.hasCheapClone t && Ty.hasCheapClone e)) ∧
    (∀ o : Option α, (Option.cheapClone cf o).isSome = o.isSome) ∧
    Option.cheapClone cf (none : Option α) = none ∧
    (∀ x : α, Option.cheapClone cf (some x) = some x) ∧
    (∀ x : α, RustResult.cheapClone cf ce (.ok x)
      = (RustResult.ok x : RustResult α ε)) ∧
    (∀ e : ε, RustResult.cheapClone cf ce (.err e)
      = (RustResult.err e : RustResult α ε)) := by
  refine ⟨fun _ => rfl, fun _ _ => rfl, ?_, rfl, ?_, ?_, ?_⟩
  · intro o
    cases o <;> rfl
  · intro x
    simp [Option.cheapClone, Option.cloneR, hcf]
  · intro x
    simp [RustResult.cheapClone, RustResult.clone, hcf]
  · intro e
    simp [RustResult.cheapClone, RustResult.clone, hce]

/-- C6 witness: the theorem applied at `Option<usize>` / `Result<usize,
usize>` values with identity inner clones. -/
theorem c6_option_result_witness :
    Option.cheapClone (fun n : Nat => n) (some 3) = some 3 ∧
    RustResult.cheapClone (fun n : Nat => n) (fun m : Nat => m)
      (RustResult.err 7) = RustResult.err 7 := by
  have h := c6_option_result_preserve_variant Nat Nat (fun n => n) (fun m => m)
    (fun _ => rfl) (fun _ => rfl)
  exact ⟨h.2.2.2.2.1 3, h.2.2.2.2.2.2 7⟩

/-- C7: calling `cheap_clone` twice in sequence on the same original value
yields two mutually-equal results: for `Rc` / `Arc` / `Bytes` both calls
return a handle to the original's allocation (even though the count state
differs between the calls); for stateless wrappers such as `Option` the
two calls are the same application; for `Box` the two fresh allocations
hold equal contents in the final store. -/
theorem c7_double_cheap_clone_results_equal
    (α : Type) (cf : α → α) (b : Box α) (s : BoxHeap α) (v : α)
    (hmem : s.mem b.ptr = some v) (hfresh : s.mem s.next = none) :
    (∀ (β : Type) (p : Rc β) (t : CountHeap),
      (Rc.cheapClone p (Rc.cheapClone p t).2).1 = (Rc.cheapClone p t).1) ∧
    (∀ (β : Type) (p : Arc β) (t : CountHeap),
      (Arc.cheapClone p (Arc.cheapClone p t).2).1 = (Arc.cheapClone p t).1) ∧
    (∀ (bs : Bytes) (t : CountHeap),
      (Bytes.cheapClone bs (Bytes.cheapClone bs t).2).1
        = (Bytes.cheapClone bs t).1) ∧
    (∀ (β : Type) (g : β → β) (o : Option β),
      Option.cheapClone g o = Option.cheapClone g o) ∧
    (Box.cheapClone cf b (Box.cheapClone cf b s).2).2.mem
        (Box.cheapClone cf b (Box.cheapClone cf b s).2).1.ptr
      = (Box.cheapClone cf b (Box.cheapClone cf b s).2).2.mem
        (Box.cheapClone cf b s).1.ptr := by
  have hne : b.ptr ≠ s.next := by
    intro h
    rw [h, hfresh] at hmem
    exact Option.noConfusion hmem
  refine ⟨fun _ _ _ => rfl, fun _ _ _ => rfl, fun _ _ => rfl,
    fun _ _ _ => rfl, ?_⟩
  simp only [Box.cheapClone, Box.clone_eq_of_mem cf b s v hmem]
  rw [Box.clone_eq_of_mem cf b
    ⟨fun q => if q = s.next then some (cf v) else s.mem q, s.next + 1⟩ v
    (by simp [hne, hmem])]
  simp

/-- C7 witness: the `Rc` component of the theorem at a concrete handle and
count heap, hypotheses discharged by a one-cell box store. -/
theorem c7_double_witness :
    (Rc.cheapClone (Rc.mk 0 : Rc Nat)
        (Rc.cheapClone (Rc.mk 0 : Rc Nat) ⟨fun _ => 1⟩).2).1
      = (Rc.cheapClone (Rc.mk 0 : Rc Nat) ⟨fun _ => 1⟩).1 :=
  (c7_double_cheap_clone_results_equal Nat (fun n => n) ⟨0⟩
    ⟨fun q => if q = 0 then some 5 else none, 1⟩ 5 rfl rfl).1 Nat ⟨0⟩ ⟨fun _ => 1⟩

/-- Ordinary duplication of `Ipv4Addr` returns the same value. -/
theorem ipv4Addr_clone_eq (x : Ipv4Addr) : x.clone = x := by
  cases x
  rfl

/-- Ordinary duplication of `Ipv6Addr` returns the same value. -/
theorem ipv6Addr_clone_eq (x : Ipv6Addr) : x.clone = x := by
  cases x
  rfl

/-- Ordinary duplication of `SocketAddrV4` returns the same value. -/
theorem socketAddrV4_clone_eq (x : SocketAddrV4) : x.clone = x := by
  cases x with
  | mk ip port => simp [SocketAddrV4.clone, ipv4Addr_clone_eq]

/-- Ordinary duplication of `SocketAddrV6` returns the same value. -/
theorem socketAddrV6_clone_eq (x : SocketAddrV6) : x.clone = x := by
  cases x with
  | mk ip port fl sc => simp [SocketAddrV6.clone, ipv6Addr_clone_eq]

/-- C8: every override in the crate (the macro-generated `*self` bodies on
the scalar carriers, the non-zero wrappers, `&str`, the floats and the six
network-address types, and the `*self` body on `[T; N]`) returns exactly
what the default body (delegation to the type's ordinary duplication)
would return; the array case needs the element clone to be
value-preserving, which holds for every `Copy` element type the impl
admits. -/
theorem c8_overrides_match_default
    (α : Type) (n : Nat) (cloneElem : α → α) (v : ArrayN α n)
    (hce : ∀ x, cloneElem x = x) :
    (∀ b : Bool, copyCheapClone b = copyClone b) ∧
    (∀ c : Char, copyCheapClone c = copyClone c) ∧
    (∀ i : Int, copyCheapClone i = copyClone i) ∧
    (∀ m : Nat, copyCheapClone m = copyClone m) ∧
    (∀ z : NonZeroI, copyCheapClone z = copyClone z) ∧
    (∀ z : NonZeroU, copyCheapClone z = copyClone z) ∧
    (∀ st : StrRef, copyCheapClone st = copyClone st) ∧
    (∀ x : F32, copyCheapClone x = copyClone x) ∧
    (∀ x : F64, copyCheapClone x = copyClone x) ∧
    (∀ x : Ipv4Addr, Ipv4Addr.cheapClone x = Ipv4Addr.clone x) ∧
    (∀ x : Ipv6Addr, Ipv6Addr.cheapClone x = Ipv6Addr.clone x) ∧
    (∀ x : SocketAddrV4, SocketAddrV4.cheapClone x = SocketAddrV4.clone x) ∧
    (∀ x : SocketAddrV6, SocketAddrV6.cheapClone x = SocketAddrV6.clone x) ∧
    (∀ x : IpAddr, IpAddr.cheapClone x = IpAddr.clone x) ∧
    (∀ x : SocketAddr, SocketAddr.cheapClone x = SocketAddr.clone x) ∧
    (∀ i : Fin n, ArrayN.cheapClone v i = ArrayN.clone cloneElem v i) := by
  refine ⟨fun _ => rfl, fun _ => rfl, fun _ => rfl, fun _ => rfl, fun _ => rfl,
    fun _ => rfl, fun _ => rfl, fun _ => rfl, fun _ => rfl,
    fun x => (ipv4Addr_clone_eq x).symm, fun x => (ipv6Addr_clone_eq x).symm,
    fun x => (socketAddrV4_clone_eq x).symm,
    fun x => (socketAddrV6_clone_eq x).symm, ?_, ?_,
    fun i => (hce (v i)).symm⟩
  · intro x
    cases x with
    | v4 a => simp [IpAddr.cheapClone, IpAddr.clone, ipv4Addr_clone_eq]
    | v6 a => simp [IpAddr.cheapClone, IpAddr.clone, ipv6Addr_clone_eq]
  · intro x
    cases x with
    | v4 a => simp [SocketAddr.cheapClone, SocketAddr.clone,
        socketAddrV4_clone_eq]
    | v6 a => simp [SocketAddr.cheapClone, SocketAddr.clone,
        socketAddrV6_clone_eq]

/-- C8 witness: the array component of the theorem at a concrete constant
array of length 2 with the identity element clone. -/
theorem c8_overrides_witness :
    ArrayN.cheapClone (fun _ : Fin 2 => (7 : Nat)) ⟨0, by decide⟩
      = ArrayN.clone (fun x : Nat => x) (fun _ : Fin 2 => (7 : Nat))
          ⟨0, by decide⟩ :=
  (c8_overrides_match_default Nat 2 (fun x => x) (fun _ => 7)
    (fun _ => rfl)).2.2.2.2.2.2.2.2.2.2.2.2.2.2.2 ⟨0, by decide⟩

/-- C9: `cheap_clone` has no failure path and does not mutate the
receiver: for the counted pointers the receiver handle is returned
unchanged and no count other than the receiver's allocation is touched;
for `Box` no store cell other than the fresh one changes (so the
receiver's pointee is intact), and even on a dangling handle — which the
real program cannot produce — the operation still returns rather than
fail. The stateless carriers are total Lean functions by construction. -/
theorem c9_total_and_frame :
    (∀ (α : Type) (p : Rc α) (s : CountHeap),
      (Rc.cheapClone p s).1 = p ∧
      ∀ q, q ≠ p.ptr → (Rc.cheapClone p s).2.counts q = s.counts q) ∧
    (∀ (α : Type) (p : Arc α) (s : CountHeap),
      (Arc.cheapClone p s).1 = p ∧
      ∀ q, q ≠ p.ptr → (Arc.cheapClone p s).2.counts q = s.counts q) ∧
    (∀ (bs : Bytes) (s : CountHeap),
      (Bytes.cheapClone bs s).1 = bs ∧
      ∀ q, q ≠ bs.ptr → (Bytes.cheapClone bs s).2.counts q = s.counts q) ∧
    (∀ (α : Type) (cf : α → α) (b : Box α) (s : BoxHeap α),
      (∀ q, q ≠ s.next → (Box.cheapClone cf b s).2.mem q = s.mem q) ∧
      (s.mem b.ptr = none → Box.cheapClone cf b s = (b, s))) := by
  refine ⟨?_, ?_, ?_, ?_⟩
  · intro α p s
    exact ⟨rfl, fun q hq => by simp [Rc.cheapClone, Rc.clone, CountHeap.bump, hq]⟩
  · intro α p s
    exact ⟨rfl, fun q hq => by simp [Arc.cheapClone, Arc.clone, CountHeap.bump, hq]⟩
  · intro bs s
    exact ⟨rfl, fun q hq => by simp [Bytes.cheapClone, Bytes.clone,
      CountHeap.bump, hq]⟩
  · intro α cf b s
    constructor
    · intro q hq
      cases h : s.mem b.ptr <;> simp [Box.cheapClone, Box.clone, h, hq]
    · intro h0
      simp [Box.cheapClone, Box.clone, h0]

/-- C9 witness: the `Rc` frame condition at a concrete handle and heap. -/
theorem c9_frame_witness :
    (Rc.cheapClone (Rc.mk 0 : Rc Nat) ⟨fun _ => 1⟩).2.counts 1 = 1 :=
  (c9_total_and_frame.1 Nat ⟨0⟩ ⟨fun _ => 1⟩).2 1 (by decide)

/-- C10: every deref-copy override (`*self` on the macro carriers and on
arrays of `Copy` elements) returns the receiver's value itself — in the
bit-pattern model of the floats, the bit-for-bit identical pattern — and
on a NaN input the result, though bit-identical, is not equal to the
original under native IEEE equality. -/
theorem c10_bitwise_identity_nan :
    (∀ (α : Type) (v : α), copyCheapClone v = v) ∧
    (∀ (α : Type) (n : Nat) (v : ArrayN α n), ArrayN.cheapClone v = v) ∧
    (∀ x : F32, copyCheapClone x = x) ∧
    (∀ x : F64, copyCheapClone x = x) ∧
    (∀ x : F32, x.isNan = true → F32.beq (copyCheapClone x) x = false) ∧
    (∀ x : F64, x.isNan = true → F64.beq (copyCheapClone x) x = false) := by
  refine ⟨fun _ _ => rfl, fun _ _ _ => rfl, fun _ => rfl, fun _ => rfl, ?_, ?_⟩
  · intro x hx
    simp [copyCheapClone, F32.beq, hx]
  · intro x hx
    simp [copyCheapClone, F64.beq, hx]

/-- C10 witness: the `f64` NaN component at the concrete quiet-NaN
pattern. -/
theorem c10_nan_witness :
    F64.beq (copyCheapClone (F64.mk 0x7FF8000000000000))
      (F64.mk 0x7FF8000000000000) = false :=
  c10_bitwise_identity_nan.2.2.2.2.2 ⟨0x7FF8000000000000⟩ (by decide)
